import Mathlib

/-!
Verification of the type-coercion engine in
`src/librustc/middle/typeck/infer/coercion.rs`.

The data model (type shapes, regions, mutability, trait stores, adjustments)
is a shallow embedding of the `ty::sty` universe as the coercion code uses
it.  Types are interned in the source (equality is by handle); opaque
interned components that the coercion code never inspects structurally
(function signatures, trait substitutions, builtin bounds) are embedded as
interned handles (`Nat`).  The inference context carries the next fresh
region-variable index and the region/type variable binding tables; the
subtyping combiner and the speculative-transaction combinator live outside
the excerpted file and are modelled from the specification.
-/

namespace Coercion

/-- `ast::Mutability`: `MutImmutable` / `MutMutable`. -/
inductive Mutability where
  | mutImmutable
  | mutMutable
deriving DecidableEq, Repr

/-- Regions: a concrete region or a region variable allocated by the
inference context (`ty::Region`, `ReInfer(ReVar)`). -/
inductive Region where
  | reConcrete (n : Nat)
  | reVar (n : Nat)
deriving DecidableEq, Repr

/-- `ty::TraitStore`: storage of a trait object or closure. -/
inductive TraitStore where
  | uniqTraitStore
  | regionTraitStore (r : Region) (m : Mutability)
deriving DecidableEq, Repr

/-- `ast::FnStyle`: only `NormalFn` coerces to a closure. -/
inductive FnStyle where
  | normalFn
  | unsafeFn
deriving DecidableEq, Repr

/-- `abi::Abi`, collapsed to the one distinction the coercion code makes:
the native `Rust` calling convention versus any foreign one. -/
inductive Abi where
  | rust
  | foreignAbi
deriving DecidableEq, Repr

/-- The `ty::sty` type shapes that the coercion code dispatches on.
`mt { ty, mutbl }` pairs are flattened into the pointer constructors.
Function signatures (`sig`), trait substitutions (`substs`) and builtin
bounds (`bounds`) are interned handles: the coercion code only clones and
compares them, never looks inside. -/
inductive Ty where
  | ty_nil
  | ty_bool
  | ty_char
  | ty_int
  | ty_box (t : Ty)
  | ty_uniq (t : Ty)
  | ty_ptr (t : Ty) (mutbl : Mutability)
  | ty_rptr (r : Region) (t : Ty) (mutbl : Mutability)
  | ty_vec (t : Ty) (len : Option Nat)
  | ty_str
  | ty_closure (fn_style : FnStyle) (store : TraitStore) (bounds : Nat) (sig : Nat)
  | ty_bare_fn (fn_style : FnStyle) (abi : Abi) (sig : Nat)
  | ty_trait (def_id : Nat) (substs : Nat) (store : TraitStore) (bounds : Nat)
  | ty_infer (v : Nat)
deriving DecidableEq, Repr

/-- `ty::UnsizeKind`: the erasure performed by unsizing. -/
inductive UnsizeKind where
  | unsizeLength (n : Nat)
deriving DecidableEq, Repr

/-- `ty::AutoRef`, restricted to the variants the coercion code builds.
The third argument of `AutoPtr` is an `Option<Box<AutoRef>>` that this
file passes as `None` at its only construction site; no nested auto-ref is
ever built here, so the payload is embedded as an empty option. -/
inductive AutoRef where
  | autoPtr (r : Region) (m : Mutability) (nested : Option Unit)
  | autoBorrowVec (r : Region) (m : Mutability)
  | autoBorrowObj (r : Region) (m : Mutability)
  | autoUnsafe (m : Mutability)
  | autoUnsize (r : Region) (m : Mutability) (k : UnsizeKind)
  | autoUnsizeRef (r : Region) (m : Mutability) (k : UnsizeKind)
  | autoUnsizeUniq (k : UnsizeKind)
deriving DecidableEq, Repr

/-- `ty::AutoAdjustment`: the output vocabulary of a successful coercion. -/
inductive AutoAdjustment where
  | autoAddEnv (store : TraitStore)
  | autoDerefRef (autoderefs : Nat) (autoref : Option AutoRef)
  | autoObject (store : TraitStore) (bounds : Nat) (def_id : Nat) (substs : Nat)
deriving DecidableEq, Repr

/-- `ty::type_err`, collapsed: the coercion code itself only ever
constructs `terr_mismatch`, and it propagates combiner errors unchanged. -/
inductive TyErr where
  | terr_mismatch
deriving DecidableEq, Repr

/-- The inference-context state the coercion engine can observe and mutate:
the next fresh region-variable index and the region / type variable binding
tables. -/
structure InferCtx where
  nextRegionVar : Nat
  rbind : List (Nat × Region)
  tbind : List (Nat × Ty)
deriving DecidableEq, Repr

/-- The empty inference context. -/
def ctx0 : InferCtx := ⟨0, [], []⟩

/-- `infcx.next_region_var(..)`: allocate a fresh region variable. -/
def next_region_var (ctx : InferCtx) : Region × InferCtx :=
  (Region.reVar ctx.nextRegionVar, { ctx with nextRegionVar := ctx.nextRegionVar + 1 })

/-- Chase a region through the binding table (fuelled; bindings are acyclic
in any context the engine builds). -/
def chaseRegion (ctx : InferCtx) : Nat → Region → Region
  | 0, r => r
  | fuel + 1, Region.reVar n =>
      match ctx.rbind.lookup n with
      | some r => chaseRegion ctx fuel r
      | none => Region.reVar n
  | _, r => r

/-- Resolve a region through the current bindings. -/
def resolveRegion (ctx : InferCtx) (r : Region) : Region :=
  chaseRegion ctx (ctx.rbind.length + 1) r

/-- Chase a type variable through the binding table (fuelled). -/
def chaseTy (ctx : InferCtx) : Nat → Ty → Ty
  | 0, t => t
  | fuel + 1, Ty.ty_infer n =>
      match ctx.tbind.lookup n with
      | some t => chaseTy ctx fuel t
      | none => Ty.ty_infer n
  | _, t => t

/-- Shallow resolution of a possibly-variable type to its bound shape. -/
def resolveTy (ctx : InferCtx) (t : Ty) : Ty :=
  chaseTy ctx (ctx.tbind.length + 1) t

/-- `resolve_type(.., try_resolve_tvar_shallow)` as `unpack_actual_value`
consumes it: `some` shape, or `none` when an unbound type variable remains
(the source treats that as a fatal internal error, `span_bug`). -/
def shallow_resolve (ctx : InferCtx) (t : Ty) : Option Ty :=
  match resolveTy ctx t with
  | Ty.ty_infer _ => none
  | t' => some t'

/-- Modelled from the spec: the combiner mutability rule (the target may be
the weaker, shared form of a mutable source). The `Sub` combiner itself is
not part of the excerpted source. -/
def mutCompat (a b : Mutability) : Bool :=
  a = b || (a = Mutability.mutMutable && b = Mutability.mutImmutable)

/-- Modelled from the spec: region subtyping inside the combiner; an
unresolved region variable on either side is bound as unification
progress. Returns the updated context and whether the regions relate. -/
def subRegion (ctx : InferCtx) (ra rb : Region) : InferCtx × Bool :=
  let ra' := resolveRegion ctx ra
  let rb' := resolveRegion ctx rb
  if ra' = rb' then (ctx, true)
  else
    match ra', rb' with
    | Region.reVar n, _ => ({ ctx with rbind := (n, rb') :: ctx.rbind }, true)
    | _, Region.reVar n => ({ ctx with rbind := (n, ra') :: ctx.rbind }, true)
    | _, _ => (ctx, false)

/-- Modelled from the spec: trait-store subtyping inside the combiner. -/
def subStore (ctx : InferCtx) (sa sb : TraitStore) : InferCtx × Bool :=
  match sa, sb with
  | TraitStore.uniqTraitStore, TraitStore.uniqTraitStore => (ctx, true)
  | TraitStore.regionTraitStore ra ma, TraitStore.regionTraitStore rb mb =>
      match subRegion ctx ra rb with
      | (ctx1, true) => (ctx1, mutCompat ma mb)
      | (ctx1, false) => (ctx1, false)
  | _, _ => (ctx, false)

/-- Modelled from the spec: `Sub(..).tys(a, b)`, the general
unification/subtyping check, which `coercion.rs` consumes but which lives
outside the excerpted file. Identical (interned) types relate trivially;
unresolved variables are bound as a side effect; otherwise the check is
structural, left to right, threading the binding state — so a failure deep
in a compound type leaves the bindings made on the way. Fuelled to make the
recursion (through variable bindings) structural. -/
def subTy : Nat → InferCtx → Ty → Ty → InferCtx × Except TyErr Unit
  | 0, ctx, _, _ => (ctx, Except.error TyErr.terr_mismatch)
  | fuel + 1, ctx, a, b =>
    let a' := resolveTy ctx a
    let b' := resolveTy ctx b
    if a' = b' then (ctx, Except.ok ())
    else
      match a', b' with
      | Ty.ty_infer n, t => ({ ctx with tbind := (n, t) :: ctx.tbind }, Except.ok ())
      | t, Ty.ty_infer n => ({ ctx with tbind := (n, t) :: ctx.tbind }, Except.ok ())
      | Ty.ty_box ta, Ty.ty_box tb => subTy fuel ctx ta tb
      | Ty.ty_uniq ta, Ty.ty_uniq tb => subTy fuel ctx ta tb
      | Ty.ty_ptr ta ma, Ty.ty_ptr tb mb =>
          if mutCompat ma mb then subTy fuel ctx ta tb
          else (ctx, Except.error TyErr.terr_mismatch)
      | Ty.ty_rptr ra ta ma, Ty.ty_rptr rb tb mb =>
          match subRegion ctx ra rb with
          | (ctx1, true) =>
              if mutCompat ma mb then subTy fuel ctx1 ta tb
              else (ctx1, Except.error TyErr.terr_mismatch)
          | (ctx1, false) => (ctx1, Except.error TyErr.terr_mismatch)
      | Ty.ty_vec ta la, Ty.ty_vec tb lb =>
          if la = lb then subTy fuel ctx ta tb
          else (ctx, Except.error TyErr.terr_mismatch)
      | Ty.ty_trait d1 s1 st1 b1, Ty.ty_trait d2 s2 st2 b2 =>
          if d1 = d2 && s1 = s2 && b1 = b2 then
            match subStore ctx st1 st2 with
            | (ctx1, true) => (ctx1, Except.ok ())
            | (ctx1, false) => (ctx1, Except.error TyErr.terr_mismatch)
          else (ctx, Except.error TyErr.terr_mismatch)
      | Ty.ty_closure f1 st1 b1 s1, Ty.ty_closure f2 st2 b2 s2 =>
          if f1 = f2 && b1 = b2 && s1 = s2 then
            match subStore ctx st1 st2 with
            | (ctx1, true) => (ctx1, Except.ok ())
            | (ctx1, false) => (ctx1, Except.error TyErr.terr_mismatch)
          else (ctx, Except.error TyErr.terr_mismatch)
      | _, _ => (ctx, Except.error TyErr.terr_mismatch)

/-- The combiner entry point used by the coercion code. -/
def sub_tys (ctx : InferCtx) (a b : Ty) : InferCtx × Except TyErr Unit :=
  subTy 100 ctx a b

/-- Modelled from the spec: `infcx.try(f)` — run `f` speculatively and roll
back every binding made inside it when it fails (§6 of the spec; the
combinator lives outside the excerpted file). -/
def infcx_try (ctx : InferCtx)
    (f : InferCtx → InferCtx × Except TyErr Unit) : InferCtx × Except TyErr Unit :=
  match f ctx with
  | (ctx', Except.ok u) => (ctx', Except.ok u)
  | (_, Except.error e) => (ctx, Except.error e)

/-- `CoerceResult = Result<Option<AutoAdjustment>, type_err>`, with a third
outcome for the fatal internal error `unpack_actual_value` raises via
`span_bug` when shallow resolution fails (the source aborts there, so this
outcome propagates through every fallthrough below and is never caught). -/
inductive CRes where
  | ok (adj : Option AutoAdjustment)
  | err (e : TyErr)
  | bug
deriving DecidableEq, Repr

/-- A coercion step: the (possibly mutated) inference context paired with
its outcome. -/
abbrev CoerceResult := InferCtx × CRes

/-- `Coerce::subtype`: plain subtyping; success is a coercion with no
adjustment (`Ok(None)`). -/
def subtype (ctx : InferCtx) (a b : Ty) : CoerceResult :=
  match sub_tys ctx a b with
  | (ctx1, Except.ok _) => (ctx1, CRes.ok none)
  | (ctx1, Except.error e) => (ctx1, CRes.err e)

/-- `Coerce::unpack_actual_value`: shallow-resolve `a` and hand its shape
to `f`; failure to resolve is the fatal internal error (`span_bug`). -/
def unpack_actual_value (ctx : InferCtx) (a : Ty)
    (f : InferCtx → Ty → CoerceResult) : CoerceResult :=
  match shallow_resolve ctx a with
  | some t => f ctx t
  | none => (ctx, CRes.bug)

/-- The pointee stripped by the borrowed-pointer rule:
`ty_box(T) | ty_uniq(T) | ty_rptr(_, mt_a) → T`, anything else `none`
(lines 264-270 of `coercion.rs`). -/
def borrow_inner : Ty → Option Ty
  | Ty.ty_box t => some t
  | Ty.ty_uniq t => some t
  | Ty.ty_rptr _ t _ => some t
  | _ => none

/-- `Coerce::coerce_borrowed_pointer` (lines 244-290): strip one level of
indirection from `a`, re-borrow with a fresh region at mutability
`mutbl_b`, and check against `b`. The fresh region is allocated before the
shape of `a` is examined, and the subtype check is not wrapped in a
transaction (`if_ok!` propagates its failure directly). Fat pointees
(`ty_str`, unsized `ty_vec`) get zero derefs and `AutoBorrowVec`; others
get one deref and `AutoPtr`. -/
def coerce_borrowed_pointer (ctx : InferCtx) (a sty_a b : Ty)
    (mutbl_b : Mutability) : CoerceResult :=
  let (r_borrow, ctx1) := next_region_var ctx
  match borrow_inner sty_a with
  | none => subtype ctx1 a b
  | some inner_ty =>
    let a_borrowed := Ty.ty_rptr r_borrow inner_ty mutbl_b
    match sub_tys ctx1 a_borrowed b with
    | (ctx2, Except.error e) => (ctx2, CRes.err e)
    | (ctx2, Except.ok _) =>
      match inner_ty with
      | Ty.ty_str =>
          (ctx2, CRes.ok (some (AutoAdjustment.autoDerefRef 0
            (some (AutoRef.autoBorrowVec r_borrow mutbl_b)))))
      | Ty.ty_vec _ none =>
          (ctx2, CRes.ok (some (AutoAdjustment.autoDerefRef 0
            (some (AutoRef.autoBorrowVec r_borrow mutbl_b)))))
      | _ =>
          (ctx2, CRes.ok (some (AutoAdjustment.autoDerefRef 1
            (some (AutoRef.autoPtr r_borrow mutbl_b none)))))

/-- `Coerce::coerce_unsized_with_borrow` (lines 293-320): the combined
borrow + unsize rule for a fixed-size array source. The subtype check runs
inside `infcx.try`, so its bindings are rolled back on failure; the fresh
region allocated before the transaction survives. -/
def coerce_unsized_with_borrow (ctx : InferCtx) (a sty_a b : Ty)
    (mutbl_b : Mutability) : CoerceResult :=
  match sty_a with
  | Ty.ty_vec t_a (some len) =>
      let (r_borrow, ctx1) := next_region_var ctx
      let unsized_ty := Ty.ty_rptr r_borrow (Ty.ty_vec t_a none) mutbl_b
      match infcx_try ctx1 (fun c => sub_tys c unsized_ty b) with
      | (ctx2, Except.ok _) =>
          (ctx2, CRes.ok (some (AutoAdjustment.autoDerefRef 0
            (some (AutoRef.autoUnsizeRef r_borrow mutbl_b (UnsizeKind.unsizeLength len))))))
      | (ctx2, Except.error e) => (ctx2, CRes.err e)
  | _ => (ctx, CRes.err TyErr.terr_mismatch)

/-- `Coerce::unsize_ty` (lines 384-394): `[T, ..n] → ([T], UnsizeLength n)`. -/
def unsize_ty : Ty → Option (Ty × UnsizeKind)
  | Ty.ty_vec t_a (some len) => some (Ty.ty_vec t_a none, UnsizeKind.unsizeLength len)
  | _ => none

/-- `Coerce::coerce_unsized` (lines 324-379): plain unsizing of a
fixed-size array behind an owned pointer or reference. Both subtype checks
run inside `infcx.try`. -/
def coerce_unsized (ctx : InferCtx) (a sty_a b : Ty) : CoerceResult :=
  match sty_a, b with
  | Ty.ty_uniq t_a, Ty.ty_rptr _ _ mutbl_b =>
      unpack_actual_value ctx t_a (fun c sa =>
        match unsize_ty sa with
        | some (t, kind) =>
            let (r_borrow, c1) := next_region_var c
            let t' := Ty.ty_rptr r_borrow t mutbl_b
            match infcx_try c1 (fun c2 => sub_tys c2 t' b) with
            | (c2, Except.ok _) =>
                (c2, CRes.ok (some (AutoAdjustment.autoDerefRef 0
                  (some (AutoRef.autoUnsize r_borrow mutbl_b kind)))))
            | (c2, Except.error e) => (c2, CRes.err e)
        | none => (c, CRes.err TyErr.terr_mismatch))
  | Ty.ty_rptr _ t_a _, Ty.ty_rptr _ _ mutbl_b =>
      unpack_actual_value ctx t_a (fun c sa =>
        match unsize_ty sa with
        | some (t, kind) =>
            let (r_borrow, c1) := next_region_var c
            let t' := Ty.ty_rptr r_borrow t mutbl_b
            match infcx_try c1 (fun c2 => sub_tys c2 t' b) with
            | (c2, Except.ok _) =>
                (c2, CRes.ok (some (AutoAdjustment.autoDerefRef 0
                  (some (AutoRef.autoUnsize r_borrow mutbl_b kind)))))
            | (c2, Except.error e) => (c2, CRes.err e)
        | none => (c, CRes.err TyErr.terr_mismatch))
  | Ty.ty_uniq t_a, Ty.ty_uniq _ =>
      unpack_actual_value ctx t_a (fun c sa =>
        match unsize_ty sa with
        | some (t, kind) =>
            let t' := Ty.ty_uniq t
            match infcx_try c (fun c2 => sub_tys c2 t' b) with
            | (c2, Except.ok _) =>
                (c2, CRes.ok (some (AutoAdjustment.autoDerefRef 0
                  (some (AutoRef.autoUnsizeUniq kind)))))
            | (c2, Except.error e) => (c2, CRes.err e)
        | none => (c, CRes.err TyErr.terr_mismatch))
  | _, _ => (ctx, CRes.err TyErr.terr_mismatch)

/-- `Coerce::coerce_borrowed_object` (lines 396-430): rebuild a trait
object `a` with borrowed storage at a fresh region and check it subtypes
`b`; the fresh region is allocated before the shape of `a` is examined,
and the subtype check is not transactional. -/
def coerce_borrowed_object (ctx : InferCtx) (a sty_a b : Ty)
    (b_mutbl : Mutability) : CoerceResult :=
  let (r_a, ctx1) := next_region_var ctx
  match sty_a with
  | Ty.ty_trait def_id substs _ bounds =>
      let a_borrowed := Ty.ty_trait def_id substs
        (TraitStore.regionTraitStore r_a b_mutbl) bounds
      match subtype ctx1 a_borrowed b with
      | (ctx2, CRes.ok _) =>
          (ctx2, CRes.ok (some (AutoAdjustment.autoDerefRef 0
            (some (AutoRef.autoBorrowObj r_a b_mutbl)))))
      | (ctx2, CRes.err e) => (ctx2, CRes.err e)
      | (ctx2, CRes.bug) => (ctx2, CRes.bug)
  | _ => subtype ctx1 a b

/-- `Coerce::coerce_from_bare_fn` (lines 451-482): promote a bare function
with the native ABI and normal style to the closure type `b` expects,
reusing the closure fields of `b` but the signature of `a`; any other
ABI or style, or a non-closure `b`, falls back to plain subtyping. -/
def coerce_from_bare_fn (ctx : InferCtx) (a : Ty) (fn_style_a : FnStyle)
    (abi_a : Abi) (sig_a : Nat) (b : Ty) : CoerceResult :=
  unpack_actual_value ctx b (fun c sty_b =>
    if abi_a ≠ Abi.rust ∨ fn_style_a ≠ FnStyle.normalFn then subtype c a b
    else
      match sty_b with
      | Ty.ty_closure fs_b store_b bounds_b _ =>
          let adj := AutoAdjustment.autoAddEnv store_b
          let a_closure := Ty.ty_closure fs_b store_b bounds_b sig_a
          match subtype c a_closure b with
          | (c2, CRes.ok _) => (c2, CRes.ok (some adj))
          | (c2, CRes.err e) => (c2, CRes.err e)
          | (c2, CRes.bug) => (c2, CRes.bug)
      | _ => subtype c a b)

/-- `Coerce::coerce_borrowed_fn` (lines 432-449): a bare-function `a`
delegates to bare-function promotion; anything else, plain subtyping. -/
def coerce_borrowed_fn (ctx : InferCtx) (a sty_a b : Ty) : CoerceResult :=
  match sty_a with
  | Ty.ty_bare_fn fn_style abi sig => coerce_from_bare_fn ctx a fn_style abi sig b
  | _ => subtype ctx a b

/-- `Coerce::coerce_unsafe_ptr` (lines 484-512): a reference `a` is
re-tagged as a raw pointer with its own mutability and checked against
`b`; success records one deref and `AutoUnsafe` carrying the mutability of
`b`. -/
def coerce_unsafe_ptr (ctx : InferCtx) (a sty_a b : Ty) (t_b : Ty)
    (mutbl_b : Mutability) : CoerceResult :=
  match sty_a with
  | Ty.ty_rptr _ t_a mutbl_a =>
      let a_raw := Ty.ty_ptr t_a mutbl_a
      match subtype ctx a_raw b with
      | (ctx1, CRes.ok _) =>
          (ctx1, CRes.ok (some (AutoAdjustment.autoDerefRef 1
            (some (AutoRef.autoUnsafe mutbl_b)))))
      | (ctx1, CRes.err e) => (ctx1, CRes.err e)
      | (ctx1, CRes.bug) => (ctx1, CRes.bug)
  | _ => subtype ctx a b

/-- `Coerce::coerce_object` (lines 514-529): unconditionally re-tag `a`
with the trait-object data of `b`; no subtype check, no context change. -/
def coerce_object (ctx : InferCtx) (a sty_a b : Ty) (trait_def_id : Nat)
    (trait_substs : Nat) (trait_store : TraitStore) (bounds : Nat) : CoerceResult :=
  (ctx, CRes.ok (some (AutoAdjustment.autoObject trait_store bounds
    trait_def_id trait_substs)))

/-- Step 4 of `Coerce::tys` (lines 203-218): resolve `a`; a bare function
attempts promotion to a closure, anything else falls back to plain
subtyping. -/
def tys_fallback (ctx : InferCtx) (a b : Ty) : CoerceResult :=
  unpack_actual_value ctx a (fun c sty_a =>
    match sty_a with
    | Ty.ty_bare_fn fn_style abi sig => coerce_from_bare_fn c a fn_style abi sig b
    | _ => subtype c a b)

/-- Step 3 of `Coerce::tys` (lines 131-201): the shape-directed rules on
the unresolved `b`, falling through to step 4 (`tys_fallback`) when no
shape matches, and — for both trait-object arms — when the attempted rule
returns an ordinary type error. -/
def tys_shape (ctx : InferCtx) (a b : Ty) : CoerceResult :=
  match b with
  | Ty.ty_rptr _ Ty.ty_str _ =>
      unpack_actual_value ctx a (fun c sty_a =>
        coerce_borrowed_pointer c a sty_a b Mutability.mutImmutable)
  | Ty.ty_rptr _ _ mutbl_b =>
      unpack_actual_value ctx a (fun c sty_a =>
        coerce_borrowed_pointer c a sty_a b mutbl_b)
  | Ty.ty_closure _ (TraitStore.regionTraitStore _ _) _ _ =>
      unpack_actual_value ctx a (fun c sty_a => coerce_borrowed_fn c a sty_a b)
  | Ty.ty_ptr t_b mutbl_b =>
      unpack_actual_value ctx a (fun c sty_a =>
        coerce_unsafe_ptr c a sty_a b t_b mutbl_b)
  | Ty.ty_trait def_id substs TraitStore.uniqTraitStore bounds =>
      match unpack_actual_value ctx a (fun c sty_a =>
        match sty_a with
        | Ty.ty_uniq _ =>
            coerce_object c a sty_a b def_id substs TraitStore.uniqTraitStore bounds
        | _ => (c, CRes.err TyErr.terr_mismatch)) with
      | (c, CRes.ok t) => (c, CRes.ok t)
      | (c, CRes.bug) => (c, CRes.bug)
      | (c, CRes.err _) => tys_fallback c a b
  | Ty.ty_trait def_id substs (TraitStore.regionTraitStore region m) bounds =>
      match unpack_actual_value ctx a (fun c sty_a =>
        match sty_a with
        | Ty.ty_rptr _ _ _ =>
            coerce_object c a sty_a b def_id substs
              (TraitStore.regionTraitStore region m) bounds
        | _ => coerce_borrowed_object c a sty_a b m) with
      | (c, CRes.ok t) => (c, CRes.ok t)
      | (c, CRes.bug) => (c, CRes.bug)
      | (c, CRes.err _) => tys_fallback c a b
  | _ => tys_fallback ctx a b

/-- Steps 2-4 of `Coerce::tys` (lines 119-218): try plain unsizing,
returning immediately on success and otherwise continuing with the
shape-directed rules on `b`. -/
def tys_from_unsized (ctx : InferCtx) (a b : Ty) : CoerceResult :=
  match unpack_actual_value ctx a (fun c sty_a => coerce_unsized c a sty_a b) with
  | (c, CRes.ok adj) => (c, CRes.ok adj)
  | (c, CRes.bug) => (c, CRes.bug)
  | (c, CRes.err _) => tys_shape c a b

/-- `Coerce::tys` (lines 92-219), the coercion entry point: when the
unresolved `b` is a reference to an unsized array, first try the combined
borrow + unsize rule, returning its result on success and falling through
to the remaining rules on failure; otherwise start with plain unsizing. -/
def tys (ctx : InferCtx) (a b : Ty) : CoerceResult :=
  match b with
  | Ty.ty_rptr _ (Ty.ty_vec _ none) mutbl_b =>
      match unpack_actual_value ctx a (fun c sty_a =>
        coerce_unsized_with_borrow c a sty_a b mutbl_b) with
      | (c, CRes.ok adj) => (c, CRes.ok adj)
      | (c, CRes.bug) => (c, CRes.bug)
      | (c, CRes.err _) => tys_from_unsized c a b
  | _ => tys_from_unsized ctx a b

/-! ### Helper predicates and lemmas -/

/-- Whether a type is an unresolved-variable shape (`ty_infer`). -/
def Ty.is_var : Ty → Bool
  | Ty.ty_infer _ => true
  | _ => false

/-- Whether a type is an owned pointer (`ty_uniq`). -/
def Ty.is_ty_uniq : Ty → Bool
  | Ty.ty_uniq _ => true
  | _ => false

theorem chaseTy_nonvar (ctx : InferCtx) (fuel : Nat) (t : Ty)
    (h : t.is_var = false) : chaseTy ctx fuel t = t := by
  cases fuel <;> cases t <;> simp_all [Ty.is_var, chaseTy]

theorem resolveTy_nonvar (ctx : InferCtx) (t : Ty) (h : t.is_var = false) :
    resolveTy ctx t = t :=
  chaseTy_nonvar ctx _ t h

theorem shallow_resolve_nonvar (ctx : InferCtx) (t : Ty) (h : t.is_var = false) :
    shallow_resolve ctx t = some t := by
  unfold shallow_resolve
  rw [resolveTy_nonvar ctx t h]
  cases t <;> simp_all [Ty.is_var]

theorem unpack_nonvar (ctx : InferCtx) (t : Ty) (h : t.is_var = false)
    (f : InferCtx → Ty → CoerceResult) :
    unpack_actual_value ctx t f = f ctx t := by
  unfold unpack_actual_value
  rw [shallow_resolve_nonvar ctx t h]

theorem subTy_refl (fuel : Nat) (ctx : InferCtx) (t : Ty)
    (h : t.is_var = false) : subTy (fuel + 1) ctx t t = (ctx, Except.ok ()) := by
  simp only [subTy]
  rw [resolveTy_nonvar ctx t h]
  simp

theorem sub_tys_refl (ctx : InferCtx) (t : Ty) (h : t.is_var = false) :
    sub_tys ctx t t = (ctx, Except.ok ()) := by
  show subTy (99 + 1) ctx t t = (ctx, Except.ok ())
  exact subTy_refl 99 ctx t h

theorem subtype_refl (ctx : InferCtx) (t : Ty) (h : t.is_var = false) :
    subtype ctx t t = (ctx, CRes.ok none) := by
  unfold subtype
  rw [sub_tys_refl ctx t h]

/-! ### Claim theorems -/

/-- C2: when the unresolved `b` is a reference to an unsized array, `tys`
first attempts the combined borrow+unsize rule on the resolved shape of
`a`; whenever that attempt succeeds its result (context and adjustment) is
returned immediately, and whenever it fails with a type error `tys` does
not abort but continues with the plain-unsize rule and then the
shape-directed rules (`tys_from_unsized`). -/
theorem c2_fast_path_precedence (ctx : InferCtx) (a t : Ty) (r : Region)
    (m : Mutability) :
    (∀ ctx' adj,
      unpack_actual_value ctx a (fun c sty_a =>
        coerce_unsized_with_borrow c a sty_a (Ty.ty_rptr r (Ty.ty_vec t none) m) m)
        = (ctx', CRes.ok adj) →
      tys ctx a (Ty.ty_rptr r (Ty.ty_vec t none) m) = (ctx', CRes.ok adj)) ∧
    (∀ ctx' e,
      unpack_actual_value ctx a (fun c sty_a =>
        coerce_unsized_with_borrow c a sty_a (Ty.ty_rptr r (Ty.ty_vec t none) m) m)
        = (ctx', CRes.err e) →
      tys ctx a (Ty.ty_rptr r (Ty.ty_vec t none) m)
        = tys_from_unsized ctx' a (Ty.ty_rptr r (Ty.ty_vec t none) m)) := by
  constructor
  · intro ctx' adj h
    simp only [tys]
    rw [h]
  · intro ctx' e h
    simp only [tys]
    rw [h]

/-- C2 witness: `[int, ..2]` coerces to `&[int]` through the fast path,
whose successful result `tys` returns unchanged. -/
theorem c2_fast_path_precedence_witness :
    tys ctx0 (Ty.ty_vec Ty.ty_int (some 2))
        (Ty.ty_rptr (Region.reConcrete 0) (Ty.ty_vec Ty.ty_int none)
          Mutability.mutImmutable)
      = (⟨1, [(0, Region.reConcrete 0)], []⟩,
          CRes.ok (some (AutoAdjustment.autoDerefRef 0
            (some (AutoRef.autoUnsizeRef (Region.reVar 0) Mutability.mutImmutable
              (UnsizeKind.unsizeLength 2)))))) :=
  (c2_fast_path_precedence ctx0 (Ty.ty_vec Ty.ty_int (some 2)) Ty.ty_int
    (Region.reConcrete 0) Mutability.mutImmutable).1 _ _ (by decide)

/-- C3: when the unresolved `b` is a reference to the string-like type
(`ty_str`, the unsized array of characters), the shape-directed step
invokes the borrowed-pointer rule with forced immutable mutability,
whatever mutability `b` carries; concretely, both the owned unsized
character array and the owned string coerce to a shared reference with
adjustment `DerefRef{0, AutoBorrowVec(fresh, immutable)}` (the fresh
region is `reVar 0` here). -/
theorem c3_string_like_forced_immutable :
    (∀ (ctx : InferCtx) (a : Ty) (r : Region) (m : Mutability),
      tys_shape ctx a (Ty.ty_rptr r Ty.ty_str m)
        = unpack_actual_value ctx a (fun c sty_a =>
            coerce_borrowed_pointer c a sty_a (Ty.ty_rptr r Ty.ty_str m)
              Mutability.mutImmutable)) ∧
    tys ctx0 (Ty.ty_uniq (Ty.ty_vec Ty.ty_char none))
        (Ty.ty_rptr (Region.reConcrete 5) (Ty.ty_vec Ty.ty_char none)
          Mutability.mutImmutable)
      = (⟨1, [(0, Region.reConcrete 5)], []⟩,
          CRes.ok (some (AutoAdjustment.autoDerefRef 0
            (some (AutoRef.autoBorrowVec (Region.reVar 0)
              Mutability.mutImmutable))))) ∧
    tys ctx0 (Ty.ty_uniq Ty.ty_str)
        (Ty.ty_rptr (Region.reConcrete 5) Ty.ty_str Mutability.mutImmutable)
      = (⟨1, [(0, Region.reConcrete 5)], []⟩,
          CRes.ok (some (AutoAdjustment.autoDerefRef 0
            (some (AutoRef.autoBorrowVec (Region.reVar 0)
              Mutability.mutImmutable))))) :=
  ⟨fun ctx a r m => rfl, by decide, by decide⟩

/-- C5: the unsafe-pointer rule re-tags the reference `a` as a raw pointer
keeping its own mutability; whenever that raw pointer subtypes `b`, the
result is exactly one deref with `AutoUnsafe` carrying the mutability of
`b`; concretely `&mut int` coerces to `*int` with
`DerefRef{1, AutoUnsafe(immutable)}`. -/
theorem c5_unsafe_ptr_rule :
    (∀ (ctx ctx2 : InferCtx) (a b t_a t_b : Ty) (r : Region)
        (m_a m_b : Mutability),
      subtype ctx (Ty.ty_ptr t_a m_a) b = (ctx2, CRes.ok none) →
      coerce_unsafe_ptr ctx a (Ty.ty_rptr r t_a m_a) b t_b m_b
        = (ctx2, CRes.ok (some (AutoAdjustment.autoDerefRef 1
            (some (AutoRef.autoUnsafe m_b)))))) ∧
    tys ctx0 (Ty.ty_rptr (Region.reConcrete 1) Ty.ty_int Mutability.mutMutable)
        (Ty.ty_ptr Ty.ty_int Mutability.mutImmutable)
      = (ctx0, CRes.ok (some (AutoAdjustment.autoDerefRef 1
          (some (AutoRef.autoUnsafe Mutability.mutImmutable))))) := by
  constructor
  · intro ctx ctx2 a b t_a t_b r m_a m_b h
    simp only [coerce_unsafe_ptr]
    rw [h]
  · decide

/-- C5 witness: the universal part applied at the concrete scenario. -/
theorem c5_unsafe_ptr_rule_witness :
    coerce_unsafe_ptr ctx0 (Ty.ty_rptr (Region.reConcrete 1) Ty.ty_int
        Mutability.mutMutable)
      (Ty.ty_rptr (Region.reConcrete 1) Ty.ty_int Mutability.mutMutable)
      (Ty.ty_ptr Ty.ty_int Mutability.mutImmutable) Ty.ty_int
      Mutability.mutImmutable
      = (ctx0, CRes.ok (some (AutoAdjustment.autoDerefRef 1
          (some (AutoRef.autoUnsafe Mutability.mutImmutable))))) :=
  c5_unsafe_ptr_rule.1 ctx0 ctx0 _ _ _ _ _ _ _ (by decide)

/-- C6: the owned object rule performs no subtype check and no context
mutation: it unconditionally re-tags `a` as
`Object{store, bounds, def_id, substs}`; concretely an owned trait object
against the same owned trait-object expectation yields exactly that
re-tag. -/
theorem c6_owned_object_retag :
    (∀ (ctx : InferCtx) (a sty_a b : Ty) (did subs : Nat)
        (store : TraitStore) (bounds : Nat),
      coerce_object ctx a sty_a b did subs store bounds
        = (ctx, CRes.ok (some (AutoAdjustment.autoObject store bounds did subs)))) ∧
    tys ctx0 (Ty.ty_uniq (Ty.ty_trait 7 0 TraitStore.uniqTraitStore 1))
        (Ty.ty_trait 7 0 TraitStore.uniqTraitStore 1)
      = (ctx0, CRes.ok (some (AutoAdjustment.autoObject
          TraitStore.uniqTraitStore 1 7 0))) :=
  ⟨fun ctx a sty_a b did subs store bounds => rfl, by decide⟩

/-- C7 fails on the code: the borrowed-direct object rule does not
allocate a fresh region and performs no subtype check at all. Coercing a
reference to `int` — which does not subtype any trait object — to a
borrowed trait object succeeds unconditionally, the storage of the
adjustment carries the own (concrete) region of `b` rather than a fresh
region variable, and the inference context is untouched (no region was
allocated, no check ran). -/
theorem c7_borrowed_direct_counterexample :
    tys ctx0 (Ty.ty_rptr (Region.reConcrete 1) Ty.ty_int Mutability.mutImmutable)
        (Ty.ty_trait 7 0 (TraitStore.regionTraitStore (Region.reConcrete 2)
          Mutability.mutImmutable) 1)
      = (ctx0, CRes.ok (some (AutoAdjustment.autoObject
          (TraitStore.regionTraitStore (Region.reConcrete 2)
            Mutability.mutImmutable) 1 7 0))) := by decide

/-- C7 amended: for every `a` whose resolved shape is a reference and
every `b` of shape `TraitObject(_, _, Borrowed(region, mutbl), _)`, the
borrowed-direct object rule re-tags `a` with the own storage of `b` —
`Borrowed(region, mutbl)` itself, no fresh region — with no subtype check
(the context is returned unchanged). -/
theorem c7_borrowed_direct_amended (ctx : InferCtx) (r1 : Region) (t : Ty)
    (m_a : Mutability) (did subs : Nat) (r : Region) (m : Mutability)
    (bounds : Nat) :
    tys ctx (Ty.ty_rptr r1 t m_a)
        (Ty.ty_trait did subs (TraitStore.regionTraitStore r m) bounds)
      = (ctx, CRes.ok (some (AutoAdjustment.autoObject
          (TraitStore.regionTraitStore r m) bounds did subs))) := rfl

/-- Plain unsizing against a trait-object expectation always reports a
shape mismatch without touching the context: no arm of `coerce_unsized`
accepts a trait-object `b`. -/
theorem coerce_unsized_trait_err (ctx : InferCtx) (a sty_a : Ty)
    (did subs : Nat) (store : TraitStore) (bounds : Nat) :
    coerce_unsized ctx a sty_a (Ty.ty_trait did subs store bounds)
      = (ctx, CRes.err TyErr.terr_mismatch) := by
  cases sty_a <;> rfl

/-- Steps 1 and 2 never fire for a trait-object `b` (once `a` resolves):
`tys` reduces to the shape-directed step. -/
theorem tys_to_shape_on_trait (ctx : InferCtx) (a t : Ty) (did subs : Nat)
    (store : TraitStore) (bounds : Nat)
    (hres : shallow_resolve ctx a = some t) :
    tys ctx a (Ty.ty_trait did subs store bounds)
      = tys_shape ctx a (Ty.ty_trait did subs store bounds) := by
  have e : tys ctx a (Ty.ty_trait did subs store bounds)
      = tys_from_unsized ctx a (Ty.ty_trait did subs store bounds) := rfl
  rw [e]
  simp only [tys_from_unsized, unpack_actual_value, hres]
  rw [coerce_unsized_trait_err]

/-- C4: the borrowed-pointer rule. When the resolved shape of `a` strips
to a pointee `inner` and the freshly built reference
`&(fresh region) inner` (at the requested mutability) subtypes `b`, the
adjustment is zero derefs with `AutoBorrowVec` for a fat pointee
(`ty_str` or an unsized `ty_vec`) and one deref with `AutoPtr` otherwise;
when the resolved shape of `a` strips to nothing, the rule falls back to
plain subtyping (after the region allocation that the source performs
up front). -/
theorem c4_borrowed_pointer_shapes :
    (∀ (ctx ctx2 : InferCtx) (a sty_a b inner : Ty) (m : Mutability),
      borrow_inner sty_a = some inner →
      sub_tys { ctx with nextRegionVar := ctx.nextRegionVar + 1 }
          (Ty.ty_rptr (Region.reVar ctx.nextRegionVar) inner m) b
        = (ctx2, Except.ok ()) →
      coerce_borrowed_pointer ctx a sty_a b m
        = (ctx2, CRes.ok (some (match inner with
            | Ty.ty_str => AutoAdjustment.autoDerefRef 0
                (some (AutoRef.autoBorrowVec (Region.reVar ctx.nextRegionVar) m))
            | Ty.ty_vec _ none => AutoAdjustment.autoDerefRef 0
                (some (AutoRef.autoBorrowVec (Region.reVar ctx.nextRegionVar) m))
            | _ => AutoAdjustment.autoDerefRef 1
                (some (AutoRef.autoPtr (Region.reVar ctx.nextRegionVar) m none)))))) ∧
    (∀ (ctx : InferCtx) (a sty_a b : Ty) (m : Mutability),
      borrow_inner sty_a = none →
      coerce_borrowed_pointer ctx a sty_a b m
        = subtype { ctx with nextRegionVar := ctx.nextRegionVar + 1 } a b) := by
  constructor
  · intro ctx ctx2 a sty_a b inner m hinner hsub
    simp only [coerce_borrowed_pointer, next_region_var, hinner, hsub]
    cases inner <;> try rfl
    rename_i t l
    cases l <;> rfl
  · intro ctx a sty_a b m hinner
    simp only [coerce_borrowed_pointer, next_region_var, hinner]

/-- C4 witness: the universal part applied at `~int` against `&int`. -/
theorem c4_borrowed_pointer_shapes_witness :
    coerce_borrowed_pointer ctx0 (Ty.ty_uniq Ty.ty_int) (Ty.ty_uniq Ty.ty_int)
        (Ty.ty_rptr (Region.reConcrete 3) Ty.ty_int Mutability.mutImmutable)
        Mutability.mutImmutable
      = (⟨1, [(0, Region.reConcrete 3)], []⟩,
          CRes.ok (some (AutoAdjustment.autoDerefRef 1
            (some (AutoRef.autoPtr (Region.reVar 0) Mutability.mutImmutable
              none))))) :=
  c4_borrowed_pointer_shapes.1 ctx0 ⟨1, [(0, Region.reConcrete 3)], []⟩
    (Ty.ty_uniq Ty.ty_int) (Ty.ty_uniq Ty.ty_int)
    (Ty.ty_rptr (Region.reConcrete 3) Ty.ty_int Mutability.mutImmutable)
    Ty.ty_int Mutability.mutImmutable (by decide) (by rfl)

/-- C8 fails on the code: for an owned trait-object `b` and an `a` whose
resolved shape is not an owned pointer, the owned sub-rule reports a shape
mismatch but `tys` still attempts the final fallback step — here plain
subtyping of the identical types succeeds, so the coercion returns
`Ok(None)` instead of the error of the sub-rule. -/
theorem c8_owned_fallthrough_counterexample :
    tys ctx0 (Ty.ty_trait 7 0 TraitStore.uniqTraitStore 1)
        (Ty.ty_trait 7 0 TraitStore.uniqTraitStore 1)
      = (ctx0, CRes.ok none) := by decide

/-- C8 amended: for an owned trait-object `b`, when the resolved shape of
`a` is not an owned pointer the owned object branch fails with a shape
mismatch and `tys` proceeds to the final fallback step (bare-function
promotion or plain subtyping), exactly as the borrowed trait-object
branch does. -/
theorem c8_owned_fallthrough_amended (ctx : InferCtx) (a t : Ty)
    (did subs bounds : Nat) (hres : shallow_resolve ctx a = some t)
    (huniq : t.is_ty_uniq = false) :
    tys ctx a (Ty.ty_trait did subs TraitStore.uniqTraitStore bounds)
      = tys_fallback ctx a (Ty.ty_trait did subs TraitStore.uniqTraitStore bounds) := by
  rw [tys_to_shape_on_trait ctx a t did subs TraitStore.uniqTraitStore bounds hres]
  simp only [tys_shape, unpack_actual_value, hres]
  cases t <;> simp_all [Ty.is_ty_uniq]

/-- C8 witness: the amended theorem applied to an identical pair of owned
trait-object types. -/
theorem c8_owned_fallthrough_witness :
    tys ctx0 (Ty.ty_trait 7 0 TraitStore.uniqTraitStore 1)
        (Ty.ty_trait 7 0 TraitStore.uniqTraitStore 1)
      = tys_fallback ctx0 (Ty.ty_trait 7 0 TraitStore.uniqTraitStore 1)
          (Ty.ty_trait 7 0 TraitStore.uniqTraitStore 1) :=
  c8_owned_fallthrough_amended ctx0 (Ty.ty_trait 7 0 TraitStore.uniqTraitStore 1)
    (Ty.ty_trait 7 0 TraitStore.uniqTraitStore 1) 7 0 1 (by decide) (by decide)

/-- C9 fails on the code for borrowed-storage trait objects: coercing a
borrowed trait object to the identical type does not take the
plain-subtype fallback; the borrowed-object rule fires first, allocates a
fresh region, and returns a re-borrow adjustment
`DerefRef{0, AutoBorrowObj(fresh, m)}` — not `Adjustment::None`. -/
theorem c9_identity_counterexample :
    tys ctx0
        (Ty.ty_trait 7 0 (TraitStore.regionTraitStore (Region.reConcrete 2)
          Mutability.mutImmutable) 1)
        (Ty.ty_trait 7 0 (TraitStore.regionTraitStore (Region.reConcrete 2)
          Mutability.mutImmutable) 1)
      = (⟨1, [(0, Region.reConcrete 2)], []⟩,
          CRes.ok (some (AutoAdjustment.autoDerefRef 0
            (some (AutoRef.autoBorrowObj (Region.reVar 0)
              Mutability.mutImmutable))))) := by decide

/-- C9 amended: coercing an owned-storage trait object to the identical
type yields `Adjustment::None` through the plain-subtype fallback (the
owned object branch rejects the non-`ty_uniq` source shape); a
borrowed-storage trait object against its identical self instead takes
the borrowed-object rule and returns the re-borrow
`DerefRef{0, AutoBorrowObj(fresh, m)}`. -/
theorem c9_identity_amended :
    (∀ (ctx : InferCtx) (did subs bounds : Nat),
      tys ctx (Ty.ty_trait did subs TraitStore.uniqTraitStore bounds)
          (Ty.ty_trait did subs TraitStore.uniqTraitStore bounds)
        = (ctx, CRes.ok none)) ∧
    tys ctx0
        (Ty.ty_trait 3 0 (TraitStore.regionTraitStore (Region.reConcrete 4)
          Mutability.mutMutable) 2)
        (Ty.ty_trait 3 0 (TraitStore.regionTraitStore (Region.reConcrete 4)
          Mutability.mutMutable) 2)
      = (⟨1, [(0, Region.reConcrete 4)], []⟩,
          CRes.ok (some (AutoAdjustment.autoDerefRef 0
            (some (AutoRef.autoBorrowObj (Region.reVar 0)
              Mutability.mutMutable))))) := by
  constructor
  · intro ctx did subs bounds
    have e : tys ctx (Ty.ty_trait did subs TraitStore.uniqTraitStore bounds)
        (Ty.ty_trait did subs TraitStore.uniqTraitStore bounds)
        = subtype ctx (Ty.ty_trait did subs TraitStore.uniqTraitStore bounds)
            (Ty.ty_trait did subs TraitStore.uniqTraitStore bounds) := rfl
    rw [e, subtype_refl ctx (Ty.ty_trait did subs TraitStore.uniqTraitStore bounds) rfl]
  · decide

/-- C10: a bare function with the native ABI and normal style coerces to a
closure expectation with owned (`UniqTraitStore`) storage through the
final fallback step — the step-3 closure branch only fires for borrowed
closure stores — returning `AddEnvironment` with the owned store of `b`
whenever the synthetic closure built from the signature of `a` and the
closure fields of `b` subtypes `b`. -/
theorem c10_proc_promotion (ctx ctx2 : InferCtx)
    (sig_a sig_b bounds_b : Nat) (fs_b : FnStyle) :
    subtype ctx (Ty.ty_closure fs_b TraitStore.uniqTraitStore bounds_b sig_a)
        (Ty.ty_closure fs_b TraitStore.uniqTraitStore bounds_b sig_b)
      = (ctx2, CRes.ok none) →
    tys ctx (Ty.ty_bare_fn FnStyle.normalFn Abi.rust sig_a)
        (Ty.ty_closure fs_b TraitStore.uniqTraitStore bounds_b sig_b)
      = (ctx2, CRes.ok (some (AutoAdjustment.autoAddEnv
          TraitStore.uniqTraitStore))) := by
  intro h
  have e : tys ctx (Ty.ty_bare_fn FnStyle.normalFn Abi.rust sig_a)
      (Ty.ty_closure fs_b TraitStore.uniqTraitStore bounds_b sig_b)
      = (match subtype ctx
          (Ty.ty_closure fs_b TraitStore.uniqTraitStore bounds_b sig_a)
          (Ty.ty_closure fs_b TraitStore.uniqTraitStore bounds_b sig_b) with
        | (c2, CRes.ok _) => (c2, CRes.ok (some (AutoAdjustment.autoAddEnv
            TraitStore.uniqTraitStore)))
        | (c2, CRes.err e) => (c2, CRes.err e)
        | (c2, CRes.bug) => (c2, CRes.bug)) := rfl
  rw [e, h]

/-- C10 witness: with identical signatures the synthetic closure equals
`b`, the subtype check succeeds, and the promotion fires. -/
theorem c10_proc_promotion_witness :
    tys ctx0 (Ty.ty_bare_fn FnStyle.normalFn Abi.rust 3)
        (Ty.ty_closure FnStyle.normalFn TraitStore.uniqTraitStore 0 3)
      = (ctx0, CRes.ok (some (AutoAdjustment.autoAddEnv
          TraitStore.uniqTraitStore))) :=
  c10_proc_promotion ctx0 ctx0 3 3 0 FnStyle.normalFn (by decide)

/-- The modelled transaction restores the context on failure. -/
theorem infcx_try_err (ctx : InferCtx)
    (f : InferCtx → InferCtx × Except TyErr Unit) (c : InferCtx) (e : TyErr)
    (h : infcx_try ctx f = (c, Except.error e)) : c = ctx := by
  unfold infcx_try at h
  split at h
  · injection h with h1 h2; exact Except.noConfusion h2
  · injection h with h1 h2; exact h1.symm

/-- C1 fails on the code: a failed coercion attempt does not always leave
the binding table as it was. Coercing `~int` to `&bool` fails inside the
borrowed-pointer rule, whose subtype check is not wrapped in the
speculative transaction; the region variable bound during the failed
unification stays in the table after `tys` returns the error. -/
theorem c1_transactional_counterexample :
    tys ctx0 (Ty.ty_uniq Ty.ty_int)
        (Ty.ty_rptr (Region.reConcrete 9) Ty.ty_bool Mutability.mutImmutable)
      = (⟨1, [(0, Region.reConcrete 9)], []⟩, CRes.err TyErr.terr_mismatch) ∧
    ctx0.rbind = [] ∧
    ([(0, Region.reConcrete 9)] : List (Nat × Region)) ≠ ctx0.rbind := by decide

/-- C1 amended: only the unsizing rules are transactional. A failed
combined borrow+unsize attempt and a failed plain-unsize attempt leave
both binding tables exactly as they were (their subtype checks run inside
`infcx.try`); the borrowed-pointer rule runs its subtype check
untransacted, and a coercion that fails in it can leave a region binding
behind, as the concrete run in the last conjunct shows. -/
theorem c1_transactional_amended :
    (∀ (ctx : InferCtx) (a sty_a b : Ty) (m : Mutability) (c : InferCtx)
        (e : TyErr),
      coerce_unsized_with_borrow ctx a sty_a b m = (c, CRes.err e) →
      c.rbind = ctx.rbind ∧ c.tbind = ctx.tbind) ∧
    (∀ (ctx : InferCtx) (a sty_a b : Ty) (c : InferCtx) (e : TyErr),
      coerce_unsized ctx a sty_a b = (c, CRes.err e) →
      c.rbind = ctx.rbind ∧ c.tbind = ctx.tbind) ∧
    (tys ctx0 (Ty.ty_uniq Ty.ty_int)
        (Ty.ty_rptr (Region.reConcrete 9) Ty.ty_bool Mutability.mutImmutable)).2
      = CRes.err TyErr.terr_mismatch ∧
    (tys ctx0 (Ty.ty_uniq Ty.ty_int)
        (Ty.ty_rptr (Region.reConcrete 9) Ty.ty_bool Mutability.mutImmutable)).1.rbind
      = [(0, Region.reConcrete 9)] := by
  refine ⟨?_, ?_, by decide, by decide⟩
  · intro ctx a sty_a b m c e h
    unfold coerce_unsized_with_borrow at h
    repeat'
      first
        | (injection h with h1 h2;
           first
             | exact CRes.noConfusion h2
             | (subst h1; exact ⟨rfl, rfl⟩))
        | (rename_i fst9 e9 heq9;
           have h9 := infcx_try_err _ _ fst9 e9 heq9;
           subst h9;
           injection h with h1 h2;
           subst h1; exact ⟨rfl, rfl⟩)
        | simp only [unpack_actual_value, next_region_var] at h
        | split at h
  · intro ctx a sty_a b c e h
    unfold coerce_unsized at h
    repeat'
      first
        | (injection h with h1 h2;
           first
             | exact CRes.noConfusion h2
             | (subst h1; exact ⟨rfl, rfl⟩))
        | (rename_i fst9 e9 heq9;
           have h9 := infcx_try_err _ _ fst9 e9 heq9;
           subst h9;
           injection h with h1 h2;
           subst h1; exact ⟨rfl, rfl⟩)
        | simp only [unpack_actual_value, next_region_var] at h
        | split at h

/-- C1 witness: the transactional part of the amended claim applied to a
concrete failed borrow+unsize attempt whose unification bound a region
variable before failing; the tables come back clean. -/
theorem c1_transactional_witness :
    (⟨1, [], []⟩ : InferCtx).rbind = ctx0.rbind ∧
    (⟨1, [], []⟩ : InferCtx).tbind = ctx0.tbind :=
  c1_transactional_amended.1 ctx0 (Ty.ty_vec Ty.ty_int (some 2))
    (Ty.ty_vec Ty.ty_int (some 2))
    (Ty.ty_rptr (Region.reConcrete 9) Ty.ty_bool Mutability.mutImmutable)
    Mutability.mutImmutable ⟨1, [], []⟩ TyErr.terr_mismatch (by rfl)

end Coercion
